import Mathlib

set_option maxRecDepth 10000

/-!
Shallow embedding of the eCapture kernel-capability resolver
(`pkg/util/ebpf/bpf.go`, package `kernel`/`ebpf`) and of the Postgres
instrumentation module (`user/module/probe_postgres.go`).

Machine integers are modelled as `Nat` with explicit `% 2^w` where overflow
can matter (`Version` is a Go `uint32`; version components are Go `byte`).
Fallible Go functions returning `(T, error)` are modelled as
`Except String T` or as `T × Option String`, matching the shape of the
source. Operating-system effects (`os.Stat`, `syscall.Uname`, file reads,
`GetSystemConfig`) are passed in explicitly as environment records.
-/

/-- ASCII digit test: the character class matched by the Go regexp escape
for digits and consumed by the fmt verb for decimal integers. -/
def isDigitC (c : Char) : Bool := 48 ≤ c.toNat && c.toNat ≤ 57

/-- Maximal leading digit run of a character list, paired with the rest.
This is how a greedy one-or-more-digits regex group consumes input. -/
def spanDigits : List Char → List Char × List Char
  | [] => ([], [])
  | c :: rest =>
    if isDigitC c then
      let p := spanDigits rest
      (c :: p.1, p.2)
    else ([], c :: rest)

/-- Decimal value of a digit run (most significant first). -/
def digitsVal (l : List Char) : Nat :=
  l.foldl (fun acc c => 10 * acc + (c.toNat - 48)) 0

/-- Every character of the list is an ASCII digit. -/
def allDigits (l : List Char) : Bool := l.all isDigitC

/-- The list is empty or starts with a non-digit: where a greedy digit run
must stop. -/
def headNotDigit : List Char → Bool
  | [] => true
  | c :: _ => !isDigitC c

/-- The list starts with an ASCII digit. -/
def headDigit : List Char → Bool
  | [] => false
  | c :: _ => isDigitC c

/-- Leading-blank skipping performed by the fmt decimal verb before it
reads digits. -/
def skipWs : List Char → List Char
  | [] => []
  | c :: r => if c = ' ' ∨ c = '\t' then skipWs r else c :: r

/-- Decimal rendering of a natural number, fuel-indexed so that the
recursion is structural; `natToDecimal` supplies enough fuel. This is the
output of the fmt decimal verb on a non-negative value. -/
def natToDecAux : Nat → Nat → List Char → List Char
  | 0, _, acc => acc
  | fuel + 1, n, acc =>
    let acc2 := Char.ofNat (48 + n % 10) :: acc
    if n < 10 then acc2 else natToDecAux fuel (n / 10) acc2

/-- Decimal digit string of `n`, e.g. `natToDecimal 255 = "255".data`. -/
def natToDecimal (n : Nat) : List Char := natToDecAux (n + 1) n []

/-- `VersionCode` (bpf.go:194): KERNEL_VERSION packing
`(a << 16) + (b << 8) + c`. The Go parameters are `byte`, so each
component is reduced mod 256; the result is the `uint32` `Version`. -/
def VersionCode (major minor patch : Nat) : Nat :=
  (major % 256) * 65536 + (minor % 256) * 256 + (patch % 256)

/-- `Version.String` (bpf.go:166): renders `v>>16`, `v>>8&0xff`, `v&0xff`
in decimal, separated by dots. `v` is a `uint32`, hence the leading
`% 4294967296`. -/
def VersionString (v : Nat) : String :=
  String.mk
    (natToDecimal ((v % 4294967296) >>> 16) ++
      '.' :: (natToDecimal (((v % 4294967296) >>> 8) % 256) ++
        '.' :: natToDecimal ((v % 4294967296) % 256)))

/-- One fmt decimal-verb read into a Go `byte`: skip leading blanks, take
the maximal digit run; fails (scan stops, target left at zero) when there
is no digit or the value overflows a byte. Returns the value and the rest
of the input on success. -/
def sscanfNum (s : List Char) : Option (Nat × List Char) :=
  let p := spanDigits (skipWs s)
  if p.1 = [] then none
  else if 255 < digitsVal p.1 then none
  else some (digitsVal p.1, p.2)

/-- The three-component scan `fmt.Sscanf(s, "%d.%d.%d", &a, &b, &c)` of
`ParseVersion` (bpf.go:189) with `a b c : byte`: components are read left
to right, a literal dot must separate them, and the scan stops at the
first failure leaving the remaining components at zero (the error is
discarded by the caller). -/
def sscanf3 (s : List Char) : Nat × Nat × Nat :=
  match sscanfNum s with
  | none => (0, 0, 0)
  | some (v1, r1) =>
    match r1 with
    | '.' :: r2 =>
      match sscanfNum r2 with
      | none => (v1, 0, 0)
      | some (v2, r3) =>
        match r3 with
        | '.' :: r4 =>
          match sscanfNum r4 with
          | none => (v1, v2, 0)
          | some (v3, _) => (v1, v2, v3)
        | _ => (v1, v2, 0)
    | _ => (v1, 0, 0)

/-- `ParseVersion` (bpf.go:187): scans `"%d.%d.%d"` into three bytes,
ignoring any scan error, and packs them with `VersionCode`. Total: it
never reports an error. -/
def ParseVersion (s : String) : Nat :=
  VersionCode (sscanf3 s.data).1 (sscanf3 s.data).2.1 (sscanf3 s.data).2.2

/-- `strconv.ParseUint(t, 10, 8)` as used on regex digit captures: on a
syntax error (empty or non-digit token) the value is 0, on a range error
(value over 255) the returned value is the maximum 255; the boolean is
true exactly when there was no error. -/
def parseUint8 (t : List Char) : Nat × Bool :=
  if t = [] then (0, false)
  else if allDigits t then
    if digitsVal t ≤ 255 then (digitsVal t, true) else (255, false)
  else (0, false)

/-- Submatch extraction of the anchored release regex
(bpf.go:283): leading digit run, a literal dot, a second digit run, then
optionally any single character followed by a third digit run, then
anything up to the end of the text. The dot metacharacter cannot match a
newline and the trailing any-run must reach the end of the text, so a
string containing a newline never matches. Returns the major, minor and
optional patch captures. -/
def releaseMatch (l : List Char) :
    Option (List Char × List Char × Option (List Char)) :=
  if l.contains '\n' then none
  else
    match spanDigits l with
    | ([], _) => none
    | (majT, r1) =>
      match r1 with
      | '.' :: r2 =>
        match spanDigits r2 with
        | ([], _) => none
        | (minT, r3) =>
          match r3 with
          | [] => some (majT, minT, none)
          | _ :: r4 =>
            match spanDigits r4 with
            | ([], _) => some (majT, minT, none)
            | (pT, _) => some (majT, minT, some pT)
      | _ => none

/-- Error text of `kernelVersionFromReleaseString` for a non-matching
release string (bpf.go:290); the offending string is embedded (the source
quotes it with a fmt quoted-string verb). -/
def invalidReleaseMsg (s : String) : String :=
  "got invalid release version " ++ s ++ " (expected format 4.3.2-1)"

/-- `kernelVersionFromReleaseString` (bpf.go:287): match the release
regex; parse major and minor as 8-bit unsigned integers, propagating
their parse errors; parse the optional patch capture ignoring its error
(absent capture gives 0, an over-range capture gives 255); clamp the
patch to 255 when major is 4, minor is 14 and the patch is at least 252;
pack as `major*65536 + minor*256 + patch`. -/
def kernelVersionFromReleaseString (s : String) : Except String Nat :=
  match releaseMatch s.data with
  | none => Except.error (invalidReleaseMsg s)
  | some (majT, minT, patchT) =>
    if (parseUint8 majT).2 = false then
      Except.error "strconv.ParseUint: value out of range"
    else if (parseUint8 minT).2 = false then
      Except.error "strconv.ParseUint: value out of range"
    else
      let maj := (parseUint8 majT).1
      let mi := (parseUint8 minT).1
      let patch0 := match patchT with
        | none => 0
        | some t => (parseUint8 t).1
      if maj = 4 ∧ mi = 14 ∧ 252 ≤ patch0 then
        Except.ok (maj * 65536 + mi * 256 + 255)
      else Except.ok (maj * 65536 + mi * 256 + patch0)

/-- Whitespace recognized by the fmt string verb as a token separator. -/
def isWsC (c : Char) : Bool := c = ' ' ∨ c = '\t' ∨ c = '\n' ∨ c = '\r'

/-- Accumulator for `fields`: splits a character list into maximal
blank-free tokens. -/
def fieldsAux : List Char → List Char → List (List Char)
  | [], cur => if cur = [] then [] else [cur.reverse]
  | c :: r, cur =>
    if isWsC c then
      if cur = [] then fieldsAux r [] else cur.reverse :: fieldsAux r []
    else fieldsAux r (c :: cur)

/-- Blank-separated tokens of a character list, in order: the token view
taken by `fmt.Sscanf` with three string verbs. -/
def fields (l : List Char) : List (List Char) := fieldsAux l []

/-- `parseUbuntuVersion` (bpf.go:234): scan three blank-separated tokens;
fewer than three is a scan error; on success the third token is the
release string to parse. -/
def parseUbuntuVersion (procVersion : String) : Except String Nat :=
  match fields procVersion.data with
  | _ :: _ :: t3 :: _ => kernelVersionFromReleaseString (String.mk t3)
  | _ => Except.error "unexpected EOF"

/-- The literal marker of the Debian banner regex (bpf.go:253), twelve
characters long. -/
def smpDebianNeedle : List Char := " SMP Debian ".data

/-- The first list is a leading segment of the second. -/
def leadsWith : List Char → List Char → Bool
  | [], _ => true
  | _ :: _, [] => false
  | a :: as, b :: bs => a = b && leadsWith as bs

/-- Greedy capture of the Debian version token
(digits, dot, digits, any single non-newline character, digits, dash,
digits) starting exactly at the head of the list, as captured by the
group of the Debian banner regex. -/
def debianTokenAt (l : List Char) : Option (List Char) :=
  match spanDigits l with
  | ([], _) => none
  | (d1, r1) =>
    match r1 with
    | '.' :: r2 =>
      match spanDigits r2 with
      | ([], _) => none
      | (d2, r3) =>
        match r3 with
        | [] => none
        | c :: r4 =>
          if c = '\n' then none
          else
            match spanDigits r4 with
            | ([], _) => none
            | (d3, r5) =>
              match r5 with
              | '-' :: r6 =>
                match spanDigits r6 with
                | ([], _) => none
                | (d4, _) => some (d1 ++ '.' :: d2 ++ c :: d3 ++ '-' :: d4)
              | _ => none
    | _ => none

/-- Scan of the Debian banner regex over a one-line banner: the greedy
leading any-run makes the capture come from the last position where the
marker is followed by a version token. -/
def debianScan : List Char → Option (List Char)
  | [] => none
  | c :: rest =>
    match debianScan rest with
    | some t => some t
    | none =>
      if leadsWith smpDebianNeedle (c :: rest) then
        debianTokenAt ((c :: rest).drop 12)
      else none

/-- `parseDebianVersion` (bpf.go:255): no regex match is an error naming
the banner; a match hands the capture to the release-string parser. -/
def parseDebianVersion (str : String) : Except String Nat :=
  match debianScan str.data with
  | none =>
    Except.error ("failed to parse kernel version from /proc/version: " ++ str)
  | some tok => kernelVersionFromReleaseString (String.mk tok)

/-- Operating-system surfaces consumed by kernel-version resolution
(bpf.go:201-281): the Ubuntu signature-file content when readable, the
Debian banner-file content when readable, and the uname release field
(already NUL-trimmed as in `utsnameStr`) or the syscall error. -/
structure KVEnv where
  versionSignature : Option String
  procVersion : Option String
  unameRelease : Except String String

/-- `currentVersionUbuntu` (bpf.go:223): a failed read of the signature
file is an error; otherwise parse its content. -/
def currentVersionUbuntu (env : KVEnv) : Except String Nat :=
  match env.versionSignature with
  | none => Except.error "open /proc/version_signature: no such file or directory"
  | some content => parseUbuntuVersion content

/-- `currentVersionDebian` (bpf.go:244): a failed read of the banner file
is an error naming the file; otherwise parse its content. -/
def currentVersionDebian (env : KVEnv) : Except String Nat :=
  match env.procVersion with
  | none => Except.error "error reading /proc/version: no such file or directory"
  | some content => parseDebianVersion content

/-- `currentVersionUname` (bpf.go:263): a failed uname syscall is an
error; otherwise parse the trimmed release field. -/
def currentVersionUname (env : KVEnv) : Except String Nat :=
  match env.unameRelease with
  | Except.error e => Except.error e
  | Except.ok rel => kernelVersionFromReleaseString rel

/-- `CurrentKernelVersion` (bpf.go:201): try the Ubuntu signature file,
then the Debian banner, then uname, returning the first success; the
uname strategy's outcome, success or error, is returned when the first
two fail. -/
def CurrentKernelVersion (env : KVEnv) : Except String Nat :=
  match currentVersionUbuntu env with
  | Except.ok v => Except.ok v
  | Except.error _ =>
    match currentVersionDebian env with
    | Except.ok v => Except.ok v
    | Except.error _ => currentVersionUname env

/-- `HostVersion` (bpf.go:172) with the package-level mutable cache
`hostVersion` made explicit: the first component of the result is what
the call returns, the second is the cache cell after the call. The cache
starts at 0 and a nonzero cache short-circuits resolution. -/
def HostVersion (hostVersion : Nat) (env : KVEnv) : Except String Nat × Nat :=
  if hostVersion ≠ 0 then (Except.ok hostVersion, hostVersion)
  else
    match CurrentKernelVersion env with
    | Except.error e => (Except.error e, hostVersion)
    | Except.ok kv => (Except.ok kv, kv)

/-- Operating-system surfaces consumed by the feature checks
(bpf.go:65-146): presence of the fixed BTF blob path, the uname release
(for the template scan), the template list `locations` with the stat
outcome of each formatted candidate, and the kernel build configuration
as a lookup when readable. The template list and `GetSystemConfig` live
outside this slice, so they are abstract inputs here. -/
structure BTFEnv where
  vmlinuxBTFExists : Bool
  uname : Except String String
  locations : List String
  statTemplate : String → String → Bool
  getSystemConfig : Except String (String → Option String)

/-- `findVMLinux` (bpf.go:77): a failed uname aborts with its error; the
scan returns true on the first matching candidate and false with no
error when none matches (the returned error variable is the uname one,
which is nil at that point). -/
def findVMLinux (env : BTFEnv) : Bool × Option String :=
  match env.uname with
  | Except.error e => (false, some e)
  | Except.ok rel =>
    if env.locations.any (fun loc => env.statTemplate loc rel) then (true, none)
    else (false, none)

/-- `checkKernelBTF` (bpf.go:65): the fixed path short-circuits to true;
otherwise fall back to the candidate scan. -/
def checkKernelBTF (env : BTFEnv) : Bool × Option String :=
  if env.vmlinuxBTFExists then (true, none) else findVMLinux env

/-- `IsEnableBTF` (bpf.go:94): a clean positive from `checkKernelBTF` is
returned directly; otherwise the build configuration is consulted — an
unreadable configuration is an error, an absent or non-"y"
CONFIG_DEBUG_INFO_BTF is false with no error, and "y" is true. -/
def IsEnableBTF (env : BTFEnv) : Bool × Option String :=
  let fe := checkKernelBTF env
  if fe.2.isNone && fe.1 then (true, none)
  else
    match env.getSystemConfig with
    | Except.error e2 => (false, some e2)
    | Except.ok cfg =>
      match cfg "CONFIG_DEBUG_INFO_BTF" with
      | none => (false, none)
      | some bc => if bc ≠ "y" then (false, none) else (true, none)

/-- The three flags required by `IsEnableBPF` (bpf.go:131), in loop
order. -/
def requiredItems : List String :=
  ["CONFIG_BPF", "CONFIG_UPROBES", "CONFIG_ARCH_SUPPORTS_UPROBES"]

/-- The loop body of `IsEnableBPF` (bpf.go:131-143): the first absent
item fails with the not-found message naming it, the first item whose
value is not "y" fails with the disabled message naming it, and the
check succeeds when every item passes. The message texts follow the
source (including its spacing), with the fmt verb replaced by the item. -/
def checkConfigItems : List String → (String → Option String) → Bool × Option String
  | [], _ => (true, none)
  | item :: rest, cfg =>
    match cfg item with
    | none => (false, some ("Config not found,  item:" ++ item ++ "."))
    | some bc =>
      if bc ≠ "y" then (false, some ("Config disabled, item :" ++ item ++ "."))
      else checkConfigItems rest cfg

/-- `IsEnableBPF` (bpf.go:122): an unreadable build configuration is an
error; otherwise run the three-flag check. -/
def IsEnableBPF (sysConfig : Except String (String → Option String)) :
    Bool × Option String :=
  match sysConfig with
  | Except.error e => (false, some e)
  | Except.ok cfg => checkConfigItems requiredItems cfg

/-- The decoder interface value held in a module's decode table. The Go
zero value of the interface (returned for an unknown key) is
`nilIEventStruct`; the Postgres module binds `PostgresEvent`. -/
inductive IEventStruct where
  | nilIEventStruct
  | postgresEvent
deriving DecidableEq

/-- Lifecycle phase of the third-party probe manager. -/
inductive MgrPhase where
  | created
  | inited
  | started
deriving DecidableEq

/-- Modelled from the spec: the third-party probe manager
(`manager.Manager`, not part of this repository) as the claims need it —
its lifecycle phase and the number of probes currently attached. -/
structure Mgr where
  phase : MgrPhase
  attachedProbes : Nat
deriving DecidableEq

/-- `PostgresModule` (probe_postgres.go): its manager pointer (`none` is
the Go nil pointer), the map-handle-to-decoder table (map handles are
opaque naturals; the Go map's lookup is the function), and the exposed
handle list. -/
structure PostgresModule where
  bpfManager : Option Mgr
  eventFuncMaps : Nat → Option IEventStruct
  eventMaps : List Nat

/-- External outcomes consumed by `PostgresModule.Start`: whether the
embedded bytecode asset resolves, whether the configured Postgres binary
path exists (`os.Stat`), whether the third-party manager init and start
succeed, and the manager's map lookup (`GetMap`): an error, a
not-found, or the found handle. -/
structure PgEnv where
  assetOK : Bool
  postgresPathOK : Bool
  managerInitOK : Bool
  managerStartOK : Bool
  getMap : String → Except String (Option Nat)

/-- `PostgresModule.Init` (probe_postgres.go:45): empty handle list,
empty decode table, and the zero-valued (nil) manager pointer. -/
def PostgresModule.InitState : PostgresModule :=
  { bpfManager := none, eventFuncMaps := fun _ => none, eventMaps := [] }

/-- `setupManagers` (probe_postgres.go:89): a failed stat of the
configured binary path returns its error before the manager is
constructed; otherwise a fresh manager with the single declared probe is
assigned. -/
def setupManagers (env : PgEnv) (m : PostgresModule) : Except String PostgresModule :=
  if env.postgresPathOK = false then
    Except.error "stat postgresPath: no such file or directory"
  else Except.ok { m with bpfManager := some ⟨MgrPhase.created, 0⟩ }

/-- `initDecodeFun` (probe_postgres.go:141): look up the map named
events; a lookup error propagates, a not-found is its own error;
otherwise append the handle to `eventMaps` and bind the Postgres decoder
to it in `eventFuncMaps`. -/
def initDecodeFun (env : PgEnv) (m : PostgresModule) : Except String PostgresModule :=
  match env.getMap "events" with
  | Except.error e => Except.error e
  | Except.ok none => Except.error "cant found map: events"
  | Except.ok (some h) =>
    Except.ok
      { m with
        eventMaps := m.eventMaps ++ [h],
        eventFuncMaps := fun k =>
          if k = h then some IEventStruct.postgresEvent else m.eventFuncMaps k }

/-- `PostgresModule.Start` (probe_postgres.go:54): asset lookup, then
`setupManagers`, then manager init (the manager, already assigned, keeps
its state on failure), then manager start (attaching the declared
probe), then decode binding. Each failure returns the wrapped error and
the module state reached so far. -/
def PostgresModule.Start (env : PgEnv) (m : PostgresModule) :
    Except String Unit × PostgresModule :=
  if env.assetOK = false then (Except.error "couldnt find asset", m)
  else
    match setupManagers env m with
    | Except.error e =>
      (Except.error ("postgres module couldnt find binPath " ++ e ++ "."), m)
    | Except.ok m1 =>
      if env.managerInitOK = false then (Except.error "couldnt init manager", m1)
      else
        let m2 := { m1 with bpfManager := some ⟨MgrPhase.inited, 0⟩ }
        if env.managerStartOK = false then
          (Except.error "couldnt start bootstrap manager", m2)
        else
          let m3 := { m2 with bpfManager := some ⟨MgrPhase.started, 1⟩ }
          match initDecodeFun env m3 with
          | Except.error e => (Except.error e, m3)
          | Except.ok m4 => (Except.ok (), m4)

/-- Outcome of `PostgresModule.Close`: a Go runtime panic, a clean
return, or a returned error. -/
inductive CloseResult where
  | panicked
  | closedOK
  | closeError (e : String)
deriving DecidableEq

/-- Modelled from the spec: `manager.Stop(manager.CleanAll)` of the
third-party manager detaches every attached probe and cleans the shared
maps of a properly constructed manager, returning no error. -/
def managerStop (mgr : Mgr) : Except String Mgr :=
  Except.ok { mgr with attachedProbes := 0 }

/-- `PostgresModule.Close` (probe_postgres.go:129): calls
`bpfManager.Stop(manager.CleanAll)` and then the base `Module.Close`
(modelled from the spec: it releases the module's map references and
returns no error). The method call dereferences the manager receiver's
state, so when `Start` failed before `setupManagers` assigned the
manager, the receiver is the nil pointer and the call panics. -/
def PostgresModule.Close (m : PostgresModule) : CloseResult × PostgresModule :=
  match m.bpfManager with
  | none => (CloseResult.panicked, m)
  | some mgr =>
    match managerStop mgr with
    | Except.error e => (CloseResult.closeError ("couldnt stop manager " ++ e ++ "."), m)
    | Except.ok mgr2 => (CloseResult.closedOK, { m with bpfManager := some mgr2 })

/-- `PostgresModule.DecodeFun` (probe_postgres.go:136): a Go map lookup —
the bound decoder with true when the handle is registered, the zero
interface value with false otherwise. -/
def PostgresModule.DecodeFun (m : PostgresModule) (em : Nat) : IEventStruct × Bool :=
  match m.eventFuncMaps em with
  | none => (IEventStruct.nilIEventStruct, false)
  | some f => (f, true)

/-- `PostgresModule.Events` (probe_postgres.go:156). -/
def PostgresModule.Events (m : PostgresModule) : List Nat := m.eventMaps

/-- Start environment in which everything works except that the
configured Postgres binary path does not exist. -/
def pgEnvNoBinPath : PgEnv :=
  { assetOK := true, postgresPathOK := false, managerInitOK := true,
    managerStartOK := true, getMap := fun _ => Except.ok (some 1) }

/-- Start environment in which the embedded bytecode asset is missing. -/
def pgEnvNoAsset : PgEnv :=
  { assetOK := false, postgresPathOK := true, managerInitOK := true,
    managerStartOK := true, getMap := fun _ => Except.ok (some 1) }

/-- Start environment in which everything attaches but the expected
events map is absent from the loaded bytecode. -/
def pgEnvNoMap : PgEnv :=
  { assetOK := true, postgresPathOK := true, managerInitOK := true,
    managerStartOK := true, getMap := fun _ => Except.ok none }

/-- A host on which all three version-resolution sources fail: neither
distribution file is readable and the uname syscall errors. -/
def kvEnvAllFail : KVEnv :=
  { versionSignature := none, procVersion := none,
    unameRelease := Except.error "uname failed" }

/-- A host whose Ubuntu signature file resolves to kernel 5.15.0. -/
def kvEnvUbuntu : KVEnv :=
  { versionSignature := some "Ubuntu 5.15.0-76.83 5.15.0-76-generic",
    procVersion := none, unameRelease := Except.error "uname failed" }

/-- A host whose Ubuntu signature file carries the degenerate release
string 0.0, which resolves successfully to the version code 0. -/
def kvEnvZeroFirst : KVEnv :=
  { versionSignature := some "Linux version 0.0", procVersion := none,
    unameRelease := Except.error "uname failed" }

/-! Helper lemmas shared by the claim theorems. -/

theorem decimal_byte_ok :
    ∀ a, a < 256 →
      digitsVal (natToDecimal a) = a ∧ allDigits (natToDecimal a) = true ∧
        natToDecimal a ≠ [] := by decide

theorem spanDigits_append (l r : List Char) (hl : allDigits l = true)
    (hr : headNotDigit r = true) : spanDigits (l ++ r) = (l, r) := by
  induction l with
  | nil =>
    cases r with
    | nil => rfl
    | cons c t =>
      simp only [headNotDigit, Bool.not_eq_true'] at hr
      simp [spanDigits, hr]
  | cons c l ih =>
    simp only [allDigits, List.all_cons, Bool.and_eq_true] at hl
    have ih2 := ih hl.2
    simp [spanDigits, hl.1, allDigits, ih2]

theorem skipWs_of_headDigit (l : List Char) (h : headDigit l = true) :
    skipWs l = l := by
  cases l with
  | nil => rfl
  | cons c t =>
    simp only [headDigit] at h
    have hc : ¬(c = ' ' ∨ c = '\t') := by
      rintro (rfl | rfl) <;> simp [isDigitC] at h
    simp [skipWs, hc]

theorem headDigit_append (l r : List Char) (hne : l ≠ [])
    (hl : allDigits l = true) : headDigit (l ++ r) = true := by
  cases l with
  | nil => exact absurd rfl hne
  | cons c t =>
    simp only [allDigits, List.all_cons, Bool.and_eq_true] at hl
    simpa [headDigit] using hl.1

theorem sscanfNum_render (a : Nat) (ha : a < 256) (r : List Char)
    (hr : headNotDigit r = true) :
    sscanfNum (natToDecimal a ++ r) = some (a, r) := by
  obtain ⟨hv, hd, hne⟩ := decimal_byte_ok a ha
  unfold sscanfNum
  rw [skipWs_of_headDigit _ (headDigit_append _ _ hne hd),
    spanDigits_append _ _ hd hr]
  simp [hne, hv, Nat.not_lt.mpr (Nat.lt_succ_iff.mp ha)]

theorem sscanf3_render (a b c : Nat) (ha : a < 256) (hb : b < 256)
    (hc : c < 256) :
    sscanf3 (natToDecimal a ++ '.' :: (natToDecimal b ++ '.' :: natToDecimal c)) =
      (a, b, c) := by
  have h1 := sscanfNum_render a ha ('.' :: (natToDecimal b ++ '.' :: natToDecimal c)) rfl
  have h2 := sscanfNum_render b hb ('.' :: natToDecimal c) rfl
  have h3 := sscanfNum_render c hc [] rfl
  rw [List.append_nil] at h3
  simp [sscanf3, h1, h2, h3]

/-- C1: for every version value built from byte components
(major, minor, patch) with patch < 252 or (major, minor) different from
(4, 14), parsing the rendered string round-trips:
`ParseVersion (VersionString (VersionCode a b c)) = VersionCode a b c`. -/
theorem parseVersion_string_roundtrip (a b c : Nat) (ha : a ≤ 255)
    (hb : b ≤ 255) (hc : c ≤ 255) (h : c < 252 ∨ ¬(a = 4 ∧ b = 14)) :
    ParseVersion (VersionString (VersionCode a b c)) = VersionCode a b c := by
  have hva : VersionCode a b c = a * 65536 + b * 256 + c := by
    unfold VersionCode
    rw [Nat.mod_eq_of_lt (by omega), Nat.mod_eq_of_lt (by omega),
      Nat.mod_eq_of_lt (by omega)]
  have hm : VersionCode a b c % 4294967296 = VersionCode a b c :=
    Nat.mod_eq_of_lt (by omega)
  have e1 : (VersionCode a b c % 4294967296) >>> 16 = a := by
    rw [hm, hva, Nat.shiftRight_eq_div_pow]
    norm_num
    omega
  have e2 : ((VersionCode a b c % 4294967296) >>> 8) % 256 = b := by
    rw [hm, hva, Nat.shiftRight_eq_div_pow]
    norm_num
    omega
  have e3 : VersionCode a b c % 4294967296 % 256 = c := by
    rw [hm, hva]
    omega
  unfold ParseVersion VersionString
  rw [e1, e2, e3]
  have hdata :
      (String.mk (natToDecimal a ++ '.' :: (natToDecimal b ++ '.' :: natToDecimal c))).data =
        natToDecimal a ++ '.' :: (natToDecimal b ++ '.' :: natToDecimal c) := rfl
  rw [hdata, sscanf3_render a b c (by omega) (by omega) (by omega)]

/-- Witness for C1 at the concrete version 5.15.0. -/
theorem parseVersion_string_roundtrip_w :
    ParseVersion (VersionString (VersionCode 5 15 0)) = VersionCode 5 15 0 :=
  parseVersion_string_roundtrip 5 15 0 (by decide) (by decide) (by decide)
    (Or.inl (by decide))

/-- C2 counterexample: `ParseVersion` is an encoding produced by the
system, yet the encoded patch component of `ParseVersion "4.14.253"` is
253, not 255 — the 4.14 clamp does not apply to `ParseVersion`. -/
theorem parseVersion_no_clamp_cex :
    ParseVersion "4.14.253" % 256 = 253 ∧
      ¬ ParseVersion "4.14.253" % 256 = 255 := by decide

/-- C2 amended: the clamp applies to release-string parsing only — for
every release string whose regex match yields major 4, minor 14 and a
patch capture whose parsed value is at least 252, the encoded result is
4*65536 + 14*256 + 255 = 265983. -/
theorem releaseString_clamp_414 (s : String) (tmaj tmin tp : List Char)
    (hm : releaseMatch s.data = some (tmaj, tmin, some tp))
    (h4 : parseUint8 tmaj = (4, true)) (h14 : parseUint8 tmin = (14, true))
    (hp : 252 ≤ (parseUint8 tp).1) :
    kernelVersionFromReleaseString s = Except.ok 265983 := by
  simp only [kernelVersionFromReleaseString, hm, h4, h14]
  simp [hp]

/-- Witness for C2's amended theorem at the release string 4.14.252-foo. -/
theorem releaseString_clamp_414_w :
    kernelVersionFromReleaseString "4.14.252-foo" = Except.ok 265983 :=
  releaseString_clamp_414 "4.14.252-foo" ['4'] ['1', '4'] ['2', '5', '2']
    (by decide) (by decide) (by decide) (by decide)

/-- C8: release-string parsing maps 5.15.0-76-generic to
5*65536 + 15*256 + 0 = 331520 with trailing tokens ignored; every string
the release regex rejects (such as not-a-version) yields the descriptive
error embedding the offending string; and an absent patch capture
defaults the patch component to 0. -/
theorem releaseString_parse_spec :
    kernelVersionFromReleaseString "5.15.0-76-generic" = Except.ok 331520 ∧
    (∀ s : String, releaseMatch s.data = none →
      kernelVersionFromReleaseString s = Except.error (invalidReleaseMsg s)) ∧
    releaseMatch "not-a-version".data = none ∧
    (∀ s tmaj tmin, releaseMatch s.data = some (tmaj, tmin, none) →
      ∀ ma mi, parseUint8 tmaj = (ma, true) → parseUint8 tmin = (mi, true) →
        kernelVersionFromReleaseString s = Except.ok (ma * 65536 + mi * 256)) := by
  refine ⟨rfl, fun s h => ?_, rfl,
    fun s tmaj tmin hm ma mi hma hmi => ?_⟩
  · unfold kernelVersionFromReleaseString
    rw [h]
  · simp only [kernelVersionFromReleaseString, hm, hma, hmi]
    simp

/-- Witness for C8 at not-a-version (error path) and 5.15 (absent patch
defaults to 0). -/
theorem releaseString_parse_spec_w :
    kernelVersionFromReleaseString "not-a-version" =
        Except.error (invalidReleaseMsg "not-a-version") ∧
      kernelVersionFromReleaseString "5.15" = Except.ok (5 * 65536 + 15 * 256) :=
  ⟨releaseString_parse_spec.2.1 "not-a-version" (by decide),
   releaseString_parse_spec.2.2.2 "5.15" ['5'] ['1', '5'] (by decide) 5 15
     (by decide) (by decide)⟩

/-- C10: `ParseVersion` is total and never reports an error — its result
is always a valid 32-bit version; a component that fails to scan is left
at zero, so not-a-version parses to the zero version and a failing
second component zeroes the minor and patch. -/
theorem parseVersion_total :
    (∀ s : String, ParseVersion s < 4294967296) ∧
    ParseVersion "not-a-version" = VersionCode 0 0 0 ∧
    ParseVersion "not-a-version" = 0 ∧
    ParseVersion "5.x" = VersionCode 5 0 0 ∧
    ParseVersion "5.15.junk" = VersionCode 5 15 0 := by
  refine ⟨fun s => ?_, by decide, by decide, by decide, by decide⟩
  unfold ParseVersion VersionCode
  omega

/-- Witness for C10's bound at a concrete string. -/
theorem parseVersion_total_w : ParseVersion "1.2.3" < 4294967296 :=
  parseVersion_total.1 "1.2.3"

/-- C6: kernel-version resolution tries the Ubuntu signature file, then
the Debian banner, then uname, in that order, returning the first
success; one strategy failing does not abort resolution, and an error
comes out only when all three strategies fail. -/
theorem currentKernelVersion_order :
    (∀ env v, currentVersionUbuntu env = Except.ok v →
      CurrentKernelVersion env = Except.ok v) ∧
    (∀ env e v, currentVersionUbuntu env = Except.error e →
      currentVersionDebian env = Except.ok v →
      CurrentKernelVersion env = Except.ok v) ∧
    (∀ env e1 e2, currentVersionUbuntu env = Except.error e1 →
      currentVersionDebian env = Except.error e2 →
      CurrentKernelVersion env = currentVersionUname env) ∧
    (∀ env e, CurrentKernelVersion env = Except.error e →
      (∃ e1, currentVersionUbuntu env = Except.error e1) ∧
      (∃ e2, currentVersionDebian env = Except.error e2) ∧
      currentVersionUname env = Except.error e) := by
  refine ⟨fun env v h => ?_, fun env e v h1 h2 => ?_,
    fun env e1 e2 h1 h2 => ?_, fun env e h => ?_⟩
  · simp [CurrentKernelVersion, h]
  · simp [CurrentKernelVersion, h1, h2]
  · simp [CurrentKernelVersion, h1, h2]
  · unfold CurrentKernelVersion at h
    cases h1 : currentVersionUbuntu env with
    | ok v => rw [h1] at h; simp at h
    | error e1 =>
      rw [h1] at h
      cases h2 : currentVersionDebian env with
      | ok v => rw [h2] at h; simp at h
      | error e2 =>
        rw [h2] at h
        exact ⟨⟨e1, rfl⟩, ⟨e2, rfl⟩, h⟩

/-- Witness for C6: with both distribution files unreadable, resolution
returns exactly what the uname strategy returns. -/
theorem currentKernelVersion_order_w :
    CurrentKernelVersion kvEnvAllFail = currentVersionUname kvEnvAllFail :=
  currentKernelVersion_order.2.2.1 kvEnvAllFail
    "open /proc/version_signature: no such file or directory"
    "error reading /proc/version: no such file or directory" rfl rfl

/-- C7 counterexample: on a host whose release string is the degenerate
0.0, the first call to `HostVersion` succeeds with version 0, yet the
value is not cached (the cache cell stays 0) and a second call re-runs
resolution — here returning an error instead of the first call's value. -/
theorem hostVersion_cache_cex :
    (HostVersion 0 kvEnvZeroFirst).1 = Except.ok 0 ∧
    (HostVersion 0 kvEnvZeroFirst).2 = 0 ∧
    (HostVersion (HostVersion 0 kvEnvZeroFirst).2 kvEnvAllFail).1 =
      Except.error "uname failed" :=
  ⟨rfl, rfl, rfl⟩

/-- C7 amended: after the first call to `HostVersion` that succeeds with
a nonzero version, the cache holds that version and every subsequent
call returns it unchanged, regardless of the host sources — resolution
is not re-run. A first success with the (degenerate) version 0 is not
cached. -/
theorem hostVersion_cached_nonzero (env : KVEnv) (v st : Nat)
    (h : HostVersion 0 env = (Except.ok v, st)) (hv : v ≠ 0) :
    st = v ∧ ∀ env2, HostVersion st env2 = (Except.ok v, v) := by
  have h' : (match CurrentKernelVersion env with
      | Except.error e => (Except.error e, 0)
      | Except.ok kv => ((Except.ok kv : Except String Nat), kv)) =
        ((Except.ok v : Except String Nat), st) := by
    simpa [HostVersion] using h
  cases hk : CurrentKernelVersion env with
  | error e => rw [hk] at h'; simp at h'
  | ok kv =>
    rw [hk] at h'
    simp only [Prod.mk.injEq, Except.ok.injEq] at h'
    obtain ⟨rfl, rfl⟩ := h'
    exact ⟨rfl, fun env2 => by simp [HostVersion, hv]⟩

/-- Witness for C7's amended theorem: kernel 5.15.0 (code 331520) is
cached by the first call and returned by a second call on a host where
every source fails. -/
theorem hostVersion_cached_nonzero_w :
    HostVersion 331520 kvEnvAllFail = (Except.ok 331520, 331520) :=
  (hostVersion_cached_nonzero kvEnvUbuntu 331520 331520 rfl (by decide)).2
    kvEnvAllFail

/-- C4: with all three required flags set to y the minimum-support check
succeeds with no error; the first absent flag fails with the not-found
message naming exactly that flag, and the first flag with a value other
than y fails with the disabled message naming exactly that flag — the
two failure messages are distinct. -/
theorem isEnableBPF_required_flags :
    (∀ cfg : String → Option String,
      cfg "CONFIG_BPF" = some "y" → cfg "CONFIG_UPROBES" = some "y" →
      cfg "CONFIG_ARCH_SUPPORTS_UPROBES" = some "y" →
      IsEnableBPF (Except.ok cfg) = (true, none)) ∧
    (∀ cfg : String → Option String, cfg "CONFIG_BPF" = none →
      IsEnableBPF (Except.ok cfg) =
        (false, some "Config not found,  item:CONFIG_BPF.")) ∧
    (∀ (cfg : String → Option String) v, cfg "CONFIG_BPF" = some v → v ≠ "y" →
      IsEnableBPF (Except.ok cfg) =
        (false, some "Config disabled, item :CONFIG_BPF.")) ∧
    (∀ cfg : String → Option String, cfg "CONFIG_BPF" = some "y" →
      cfg "CONFIG_UPROBES" = none →
      IsEnableBPF (Except.ok cfg) =
        (false, some "Config not found,  item:CONFIG_UPROBES.")) ∧
    (∀ (cfg : String → Option String) v, cfg "CONFIG_BPF" = some "y" →
      cfg "CONFIG_UPROBES" = some v → v ≠ "y" →
      IsEnableBPF (Except.ok cfg) =
        (false, some "Config disabled, item :CONFIG_UPROBES.")) ∧
    (∀ cfg : String → Option String, cfg "CONFIG_BPF" = some "y" →
      cfg "CONFIG_UPROBES" = some "y" →
      cfg "CONFIG_ARCH_SUPPORTS_UPROBES" = none →
      IsEnableBPF (Except.ok cfg) =
        (false, some "Config not found,  item:CONFIG_ARCH_SUPPORTS_UPROBES.")) ∧
    (∀ (cfg : String → Option String) v, cfg "CONFIG_BPF" = some "y" →
      cfg "CONFIG_UPROBES" = some "y" →
      cfg "CONFIG_ARCH_SUPPORTS_UPROBES" = some v → v ≠ "y" →
      IsEnableBPF (Except.ok cfg) =
        (false, some "Config disabled, item :CONFIG_ARCH_SUPPORTS_UPROBES.")) := by
  refine ⟨fun cfg h1 h2 h3 => ?_, fun cfg h1 => ?_, fun cfg v h1 hv => ?_,
    fun cfg h1 h2 => ?_, fun cfg v h1 h2 hv => ?_, fun cfg h1 h2 h3 => ?_,
    fun cfg v h1 h2 h3 hv => ?_⟩ <;>
    simp_all [IsEnableBPF, requiredItems, checkConfigItems]

/-- Witness for C4: a configuration with all three flags enabled, one
with the user-probe flag absent, and one with the core flag disabled. -/
theorem isEnableBPF_required_flags_w :
    IsEnableBPF (Except.ok (fun k =>
        if k = "CONFIG_BPF" ∨ k = "CONFIG_UPROBES" ∨
            k = "CONFIG_ARCH_SUPPORTS_UPROBES" then some "y" else none)) =
      (true, none) ∧
    IsEnableBPF (Except.ok (fun k =>
        if k = "CONFIG_BPF" ∨ k = "CONFIG_ARCH_SUPPORTS_UPROBES" then some "y"
        else none)) =
      (false, some "Config not found,  item:CONFIG_UPROBES.") ∧
    IsEnableBPF (Except.ok (fun k =>
        if k = "CONFIG_BPF" then some "n" else some "y")) =
      (false, some "Config disabled, item :CONFIG_BPF.") :=
  ⟨isEnableBPF_required_flags.1 _ (by simp) (by simp) (by simp),
   isEnableBPF_required_flags.2.2.2.1 _ (by simp) (by simp),
   isEnableBPF_required_flags.2.2.1 _ "n" (by simp) (by simp)⟩

/-- C5: when the fixed BTF blob path exists, portable-support detection
returns true whatever the scan or configuration would say; when the
fixed path is absent and no scan candidate matches, the readable
configuration decides — CONFIG_DEBUG_INFO_BTF set to y gives true, set
to n or absent gives false with no error. -/
theorem isEnableBTF_detection :
    (∀ env : BTFEnv, env.vmlinuxBTFExists = true →
      IsEnableBTF env = (true, none)) ∧
    (∀ (env : BTFEnv) rel cfg, env.vmlinuxBTFExists = false →
      env.uname = Except.ok rel →
      (∀ loc ∈ env.locations, env.statTemplate loc rel = false) →
      env.getSystemConfig = Except.ok cfg →
      cfg "CONFIG_DEBUG_INFO_BTF" = some "y" →
      IsEnableBTF env = (true, none)) ∧
    (∀ (env : BTFEnv) rel cfg, env.vmlinuxBTFExists = false →
      env.uname = Except.ok rel →
      (∀ loc ∈ env.locations, env.statTemplate loc rel = false) →
      env.getSystemConfig = Except.ok cfg →
      cfg "CONFIG_DEBUG_INFO_BTF" = some "n" →
      IsEnableBTF env = (false, none)) ∧
    (∀ (env : BTFEnv) rel cfg, env.vmlinuxBTFExists = false →
      env.uname = Except.ok rel →
      (∀ loc ∈ env.locations, env.statTemplate loc rel = false) →
      env.getSystemConfig = Except.ok cfg →
      cfg "CONFIG_DEBUG_INFO_BTF" = none →
      IsEnableBTF env = (false, none)) := by
  have hfind : ∀ (env : BTFEnv) rel, env.uname = Except.ok rel →
      (∀ loc ∈ env.locations, env.statTemplate loc rel = false) →
      findVMLinux env = (false, none) := by
    intro env rel hu hscan
    simp only [findVMLinux, hu]
    have hany : env.locations.any (fun loc => env.statTemplate loc rel) = false := by
      rw [List.any_eq_false]
      intro loc hloc
      simp [hscan loc hloc]
    simp [hany]
  refine ⟨fun env h => ?_, fun env rel cfg h hu hscan hcfg hflag => ?_,
    fun env rel cfg h hu hscan hcfg hflag => ?_,
    fun env rel cfg h hu hscan hcfg hflag => ?_⟩
  · simp [IsEnableBTF, checkKernelBTF, h]
  · simp [IsEnableBTF, checkKernelBTF, h, hfind env rel hu hscan, hcfg, hflag]
  · simp [IsEnableBTF, checkKernelBTF, h, hfind env rel hu hscan, hcfg, hflag]
  · simp [IsEnableBTF, checkKernelBTF, h, hfind env rel hu hscan, hcfg, hflag]

/-- Witness for C5: a host with the fixed path present detects true; a
host with the fixed path absent, an empty scan, and the flag set to y
detects true via the fallback; with the flag absent it detects false
with no error. -/
theorem isEnableBTF_detection_w :
    IsEnableBTF
        { vmlinuxBTFExists := true, uname := Except.error "uname failed",
          locations := [], statTemplate := fun _ _ => false,
          getSystemConfig := Except.error "config unreadable" } =
      (true, none) ∧
    IsEnableBTF
        { vmlinuxBTFExists := false, uname := Except.ok "5.15.0-76-generic",
          locations := ["/boot/vmlinux-%s"], statTemplate := fun _ _ => false,
          getSystemConfig :=
            Except.ok (fun k =>
              if k = "CONFIG_DEBUG_INFO_BTF" then some "y" else none) } =
      (true, none) ∧
    IsEnableBTF
        { vmlinuxBTFExists := false, uname := Except.ok "5.15.0-76-generic",
          locations := ["/boot/vmlinux-%s"], statTemplate := fun _ _ => false,
          getSystemConfig := Except.ok (fun _ => none) } =
      (false, none) :=
  ⟨isEnableBTF_detection.1 _ rfl,
   isEnableBTF_detection.2.1 _ "5.15.0-76-generic" _ rfl rfl
     (by intro loc hloc; rfl) rfl (by simp),
   isEnableBTF_detection.2.2.2 _ "5.15.0-76-generic" _ rfl rfl
     (by intro loc hloc; rfl) rfl rfl⟩

/-- C3 (code bug): when `Start` fails before `setupManagers` assigns the
manager — missing attach-point binary, or missing bytecode asset — the
module's `bpfManager` is still the nil pointer and `Close` panics
dereferencing it, instead of cleaning up safely as the contract
requires; when `Start` fails after the probe attached (missing expected
map), `Close` does succeed and detaches everything. -/
theorem postgresClose_after_failed_start :
    (PostgresModule.Start pgEnvNoBinPath PostgresModule.InitState).1 =
        Except.error
          "postgres module couldnt find binPath stat postgresPath: no such file or directory." ∧
    (PostgresModule.Close
        (PostgresModule.Start pgEnvNoBinPath PostgresModule.InitState).2).1 =
      CloseResult.panicked ∧
    (PostgresModule.Start pgEnvNoAsset PostgresModule.InitState).1 =
      Except.error "couldnt find asset" ∧
    (PostgresModule.Close
        (PostgresModule.Start pgEnvNoAsset PostgresModule.InitState).2).1 =
      CloseResult.panicked ∧
    (PostgresModule.Start pgEnvNoMap PostgresModule.InitState).1 =
      Except.error "cant found map: events" ∧
    (PostgresModule.Close
        (PostgresModule.Start pgEnvNoMap PostgresModule.InitState).2).1 =
      CloseResult.closedOK ∧
    (PostgresModule.Close
          (PostgresModule.Start pgEnvNoMap PostgresModule.InitState).2).2.bpfManager =
      some ⟨MgrPhase.started, 0⟩ :=
  ⟨rfl, rfl, rfl, rfl, rfl, rfl, rfl⟩

/-- C9: `DecodeFun` is a total lookup — an unregistered map handle
yields the zero decoder value with found = false and never a crash, a
registered handle yields its bound decoder with found = true, and a
successful decode binding registers exactly the events map handle with
the Postgres decoder, leaving every other handle as before. -/
theorem decodeFun_total_lookup :
    (∀ (m : PostgresModule) em, m.eventFuncMaps em = none →
      PostgresModule.DecodeFun m em = (IEventStruct.nilIEventStruct, false)) ∧
    (∀ (m : PostgresModule) em d, m.eventFuncMaps em = some d →
      PostgresModule.DecodeFun m em = (d, true)) ∧
    (∀ (env : PgEnv) (m m2 : PostgresModule), initDecodeFun env m = Except.ok m2 →
      ∃ h, env.getMap "events" = Except.ok (some h) ∧
        PostgresModule.DecodeFun m2 h = (IEventStruct.postgresEvent, true) ∧
        ∀ k, k ≠ h → PostgresModule.DecodeFun m2 k = PostgresModule.DecodeFun m k) := by
  refine ⟨fun m em h => ?_, fun m em d h => ?_, fun env m m2 h => ?_⟩
  · simp [PostgresModule.DecodeFun, h]
  · simp [PostgresModule.DecodeFun, h]
  · unfold initDecodeFun at h
    cases hg : env.getMap "events" with
    | error e => rw [hg] at h; simp at h
    | ok o =>
      rw [hg] at h
      cases o with
      | none => simp at h
      | some hd =>
        simp only [Except.ok.injEq] at h
        subst h
        refine ⟨hd, rfl, by simp [PostgresModule.DecodeFun], ?_⟩
        intro k hk
        simp [PostgresModule.DecodeFun, hk]

/-- Witness for C9: the freshly initialized module knows no handle, and
a module with the Postgres decoder bound to handle 42 returns it with
found = true. -/
theorem decodeFun_total_lookup_w :
    PostgresModule.DecodeFun PostgresModule.InitState 7 =
        (IEventStruct.nilIEventStruct, false) ∧
      PostgresModule.DecodeFun
          { bpfManager := none,
            eventFuncMaps := fun k =>
              if k = 42 then some IEventStruct.postgresEvent else none,
            eventMaps := [42] } 42 =
        (IEventStruct.postgresEvent, true) :=
  ⟨decodeFun_total_lookup.1 PostgresModule.InitState 7 rfl,
   decodeFun_total_lookup.2.1 _ 42 IEventStruct.postgresEvent (by simp)⟩
